import Mathlib

/-!
Verification of the authentication façade in `src/services/auth.js`.

The façade (`AuthService`) forwards every operation to the Firebase client
SDK.  We embed the SDK as an abstract collaborator: a record of functions
over an opaque provider state `σ`, each returning `Except ProviderError`
(a rejected promise) or a successful value together with the next state.
The façade methods are translated directly from the source; besides the
result, the updated service object and provider state, they return the
list of SDK calls they performed, so that side-effect claims ("exactly
one verification notification", "no logout") are statable.
-/

/-- Modelled from the spec: `constants/firebaseConfig` is imported by
`auth.js` but its file is not among the sources.  The spec describes it as
"static configuration (provider endpoint/project identifiers)" supplied by
the embedding application; it is opaque to the façade. -/
structure FirebaseConfig where
  apiKey : String
  projectId : String
deriving DecidableEq, Repr

/-- The Firebase app handle returned by `initializeApp(firebaseConfig)`. -/
structure FirebaseApp where
  options : FirebaseConfig
deriving DecidableEq, Repr

/-- The auth handle returned by `getAuth(this.firebaseApp)`. -/
structure Auth where
  app : FirebaseApp
deriving DecidableEq, Repr

/-- `initializeApp` from `firebase/app`: builds the app handle from the
static configuration. -/
def initializeApp (config : FirebaseConfig) : FirebaseApp :=
  ⟨config⟩

/-- `getAuth` from `firebase/auth`: builds the auth handle from the app
handle. -/
def getAuth (app : FirebaseApp) : Auth :=
  ⟨app⟩

/-- A Firebase user record: an identifier and the email-verified flag,
the only field the façade reads (`userCredential.user.emailVerified`). -/
structure User where
  uid : String
  emailVerified : Bool
deriving DecidableEq, Repr

/-- An error signaled by the external identity provider, opaque to the
façade beyond its identity (the code rethrows it unchanged). -/
structure ProviderError where
  code : String
deriving DecidableEq, Repr

/-- Every error a façade operation can surface:
* `provider e` — a provider error rethrown unchanged by a `catch` block;
* `emailNotVerified` — `new Error("Email not verified")` thrown locally by
  `login`;
* `notImplemented` — thrown by `UnimplementedError` for the two social
  sign-in placeholders. -/
inductive AuthError where
  | provider (e : ProviderError)
  | emailNotVerified
  | notImplemented
deriving DecidableEq, Repr

/-- One call from the façade into the Firebase SDK, recorded in the trace
of an operation. -/
inductive SDKCall where
  | createUser (email password : String)
  | signIn (email password : String)
  | signOutCall
  | sendVerification (user : Option User)
  | sendPasswordReset (email : String)
deriving DecidableEq, Repr

/-- `true` exactly on `sendVerification` calls: dispatches of an
email-verification notification. -/
def SDKCall.isVerificationSend : SDKCall → Bool
  | .sendVerification _ => true
  | _ => false

/-- How many email-verification notifications a trace dispatches. -/
def verificationSends (t : List SDKCall) : Nat :=
  (t.filter SDKCall.isVerificationSend).length

/-- The Firebase client SDK, abstracted: each imported function is a
transition on an opaque provider state `σ` that may reject with a
`ProviderError`.  `currentUser` models the `auth.currentUser` property
read, which yields `none` when nobody is authenticated (JS `null`). -/
structure FirebaseSDK (σ : Type) where
  createUserWithEmailAndPassword : Auth → String → String → σ → Except ProviderError (User × σ)
  signInWithEmailAndPassword : Auth → String → String → σ → Except ProviderError (User × σ)
  signOut : Auth → σ → Except ProviderError σ
  sendEmailVerification : Option User → σ → Except ProviderError σ
  sendPasswordResetEmail : Auth → String → σ → Except ProviderError σ
  currentUser : Auth → σ → Option User

/-- The façade's own fields, assigned in the constructor. -/
structure AuthService where
  firebaseApp : FirebaseApp
  auth : Auth
deriving DecidableEq, Repr

/-- The constructor: `this.firebaseApp = initializeApp(firebaseConfig);
this.auth = getAuth(this.firebaseApp);`. -/
def AuthService.make (config : FirebaseConfig) : AuthService :=
  let app := initializeApp config
  { firebaseApp := app, auth := getAuth app }

instance {ε α : Type} [DecidableEq ε] [DecidableEq α] : DecidableEq (Except ε α)
  | .error a, .error b =>
    if h : a = b then .isTrue (by rw [h]) else .isFalse (fun hh => h (by cases hh; rfl))
  | .error _, .ok _ => .isFalse (fun h => by cases h)
  | .ok _, .error _ => .isFalse (fun h => by cases h)
  | .ok a, .ok b =>
    if h : a = b then .isTrue (by rw [h]) else .isFalse (fun hh => h (by cases hh; rfl))

/-- Outcome of one façade operation: the settled promise (`result`), the
service object after the call (`service`), the provider state after the
call (`state`), and the SDK calls performed (`trace`, in order). -/
structure AuthResult (σ α : Type) where
  result : Except AuthError α
  service : AuthService
  state : σ
  trace : List SDKCall
deriving Repr, DecidableEq

variable {σ : Type}

/-- `AuthService.register`: `createUserWithEmailAndPassword`, then
`sendEmailVerification(userCredential.user)`, then return the user.  The
`try/catch` rethrows any error unchanged. -/
def AuthService.register (svc : AuthService) (sdk : FirebaseSDK σ)
    (email password : String) (s : σ) : AuthResult σ User :=
  match sdk.createUserWithEmailAndPassword svc.auth email password s with
  | .error e => ⟨.error (.provider e), svc, s, [.createUser email password]⟩
  | .ok (user, s1) =>
    match sdk.sendEmailVerification (some user) s1 with
    | .error e => ⟨.error (.provider e), svc, s1,
        [.createUser email password, .sendVerification (some user)]⟩
    | .ok s2 => ⟨.ok user, svc, s2,
        [.createUser email password, .sendVerification (some user)]⟩

/-- `AuthService.logout`: `signOut(this.auth)`; the `try/catch` rethrows
any error unchanged. -/
def AuthService.logout (svc : AuthService) (sdk : FirebaseSDK σ) (s : σ) :
    AuthResult σ Unit :=
  match sdk.signOut svc.auth s with
  | .error e => ⟨.error (.provider e), svc, s, [.signOutCall]⟩
  | .ok s1 => ⟨.ok (), svc, s1, [.signOutCall]⟩

/-- `AuthService.login`: `signInWithEmailAndPassword`, then if
`userCredential.user.emailVerified` return the user, else
`await this.logout()` and `throw new Error("Email not verified")`.  If
the compensating `this.logout()` itself rejects, that rejection escapes
the `else` branch before the local throw is reached, and the outer
`catch` rethrows it unchanged. -/
def AuthService.login (svc : AuthService) (sdk : FirebaseSDK σ)
    (email password : String) (s : σ) : AuthResult σ User :=
  match sdk.signInWithEmailAndPassword svc.auth email password s with
  | .error e => ⟨.error (.provider e), svc, s, [.signIn email password]⟩
  | .ok (user, s1) =>
    if user.emailVerified then
      ⟨.ok user, svc, s1, [.signIn email password]⟩
    else
      match svc.logout sdk s1 with
      | ⟨.ok _, svc2, s2, t⟩ =>
          ⟨.error .emailNotVerified, svc2, s2, .signIn email password :: t⟩
      | ⟨.error e, svc2, s2, t⟩ =>
          ⟨.error e, svc2, s2, .signIn email password :: t⟩

/-- `AuthService.sendEmailVerification`: reads
`const user = this.auth.currentUser` (possibly null) and calls the SDK's
`sendEmailVerification(user)`; the `try/catch` rethrows unchanged. -/
def AuthService.sendEmailVerification (svc : AuthService) (sdk : FirebaseSDK σ)
    (s : σ) : AuthResult σ Unit :=
  let user := sdk.currentUser svc.auth s
  match sdk.sendEmailVerification user s with
  | .error e => ⟨.error (.provider e), svc, s, [.sendVerification user]⟩
  | .ok s1 => ⟨.ok (), svc, s1, [.sendVerification user]⟩

/-- `AuthService.forgotPassword`: `sendPasswordResetEmail(this.auth,
email)`; the `try/catch` rethrows unchanged. -/
def AuthService.forgotPassword (svc : AuthService) (sdk : FirebaseSDK σ)
    (email : String) (s : σ) : AuthResult σ Unit :=
  match sdk.sendPasswordResetEmail svc.auth email s with
  | .error e => ⟨.error (.provider e), svc, s, [.sendPasswordReset email]⟩
  | .ok s1 => ⟨.ok (), svc, s1, [.sendPasswordReset email]⟩

/-- Modelled from the spec: `src/utils/UnimplementedError` is imported by
`auth.js` but its file is not among the sources.  The spec states that
calling either social sign-in "fails with `NotImplementedError`
unconditionally, regardless of argument", so the call throws
`notImplemented` for every argument, `null` (`none`) and the empty string
included. -/
def UnimplementedError (_provider : Option String) : Except AuthError Unit :=
  Except.error AuthError.notImplemented

/-- `AuthService.signInWithGoogle`: the body is exactly
`UnimplementedError(provider)`; no SDK call is made, and were the call to
return, the async method would resolve with `undefined`. -/
def AuthService.signInWithGoogle (svc : AuthService) (provider : Option String)
    (s : σ) : AuthResult σ Unit :=
  match UnimplementedError provider with
  | .error e => ⟨.error e, svc, s, []⟩
  | .ok _ => ⟨.ok (), svc, s, []⟩

/-- `AuthService.signInWithFacebook`: same body as `signInWithGoogle`:
exactly `UnimplementedError(provider)`. -/
def AuthService.signInWithFacebook (svc : AuthService) (provider : Option String)
    (s : σ) : AuthResult σ Unit :=
  match UnimplementedError provider with
  | .error e => ⟨.error e, svc, s, []⟩
  | .ok _ => ⟨.ok (), svc, s, []⟩

/-! ### Concrete instances used by witnesses and counterexamples -/

/-- A concrete static configuration. -/
def cfg : FirebaseConfig :=
  ⟨"api-key", "e-shop"⟩

/-- A façade instance built by the constructor from `cfg`. -/
def svc0 : AuthService :=
  AuthService.make cfg

/-- A freshly created, unverified user. -/
def uAlice : User :=
  ⟨"alice-uid", false⟩

/-- A verified user. -/
def uBob : User :=
  ⟨"bob-uid", true⟩

/-- A baseline concrete SDK over `σ := Nat` (the state counts completed
provider transitions): every call succeeds, sign-in yields the verified
`uBob`, account creation yields the unverified `uAlice`, and dispatching
a verification notification to a null user rejects. -/
def baseSdk : FirebaseSDK Nat where
  createUserWithEmailAndPassword := fun _ _ _ s => .ok (uAlice, s + 1)
  signInWithEmailAndPassword := fun _ _ _ s => .ok (uBob, s + 1)
  signOut := fun _ s => .ok (s + 1)
  sendEmailVerification := fun u s =>
    match u with
    | some _ => .ok (s + 1)
    | none => .error ⟨"auth-no-current-user"⟩
  sendPasswordResetEmail := fun _ _ s => .ok (s + 1)
  currentUser := fun _ _ => some uBob

/-- SDK where sign-in authenticates the unverified `uAlice` and the
subsequent sign-out succeeds. -/
def sdkUnverifiedLogoutOk : FirebaseSDK Nat :=
  { baseSdk with signInWithEmailAndPassword := fun _ _ _ s => .ok (uAlice, s + 1) }

/-- SDK where sign-in authenticates the unverified `uAlice` and sign-out
rejects with a network failure. -/
def sdkUnverifiedLogoutFailNet : FirebaseSDK Nat :=
  { baseSdk with
    signInWithEmailAndPassword := fun _ _ _ s => .ok (uAlice, s + 1)
    signOut := fun _ _ => .error ⟨"network-failure"⟩ }

/-- SDK where sign-in authenticates the unverified `uAlice` and sign-out
rejects because the provider is unavailable. -/
def sdkUnverifiedLogoutDown : FirebaseSDK Nat :=
  { baseSdk with
    signInWithEmailAndPassword := fun _ _ _ s => .ok (uAlice, s + 1)
    signOut := fun _ _ => .error ⟨"signout-unavailable"⟩ }

/-- SDK where account creation rejects (duplicate email). -/
def sdkCreateFails : FirebaseSDK Nat :=
  { baseSdk with
    createUserWithEmailAndPassword := fun _ _ _ _ => .error ⟨"email-already-in-use"⟩ }

/-- SDK where dispatching a verification notification rejects. -/
def sdkSendFails : FirebaseSDK Nat :=
  { baseSdk with sendEmailVerification := fun _ _ => .error ⟨"too-many-requests"⟩ }

/-- SDK where sign-in rejects (wrong password). -/
def sdkSignInFails : FirebaseSDK Nat :=
  { baseSdk with
    signInWithEmailAndPassword := fun _ _ _ _ => .error ⟨"wrong-password"⟩ }

/-- SDK where sign-out rejects. -/
def sdkSignOutFails : FirebaseSDK Nat :=
  { baseSdk with signOut := fun _ _ => .error ⟨"no-current-session"⟩ }

/-- SDK where the password-reset dispatch rejects. -/
def sdkResetFails : FirebaseSDK Nat :=
  { baseSdk with sendPasswordResetEmail := fun _ _ _ => .error ⟨"invalid-email"⟩ }

/-- SDK with no authenticated user. -/
def sdkNoUser : FirebaseSDK Nat :=
  { baseSdk with currentUser := fun _ _ => none }

/-! ### Claims -/

/-- C2: for every input argument, including `null` (`none`) and the empty
string, `signInWithGoogle(provider)` and `signInWithFacebook(provider)`
fail with `NotImplementedError` unconditionally: the returned promise
rejects with `notImplemented`, the service and provider state are
untouched, and no SDK call is made — the call never resolves
successfully. -/
theorem C2_social_sign_ins_unimplemented (svc : AuthService)
    (provider : Option String) (s : σ) :
    svc.signInWithGoogle provider s = ⟨.error .notImplemented, svc, s, []⟩ ∧
    svc.signInWithFacebook provider s = ⟨.error .notImplemented, svc, s, []⟩ :=
  ⟨rfl, rfl⟩

/-- C4: whenever the provider authenticates the credentials and the
returned user's verified flag is true, `login` returns that user, and its
trace contains no sign-out: no logout is performed. -/
theorem C4_login_verified_returns_user (svc : AuthService) (sdk : FirebaseSDK σ)
    (email password : String) (s : σ) (user : User) (s1 : σ)
    (hsign : sdk.signInWithEmailAndPassword svc.auth email password s = .ok (user, s1))
    (hver : user.emailVerified = true) :
    svc.login sdk email password s = ⟨.ok user, svc, s1, [.signIn email password]⟩ ∧
    SDKCall.signOutCall ∉ (svc.login sdk email password s).trace := by
  have hlogin : svc.login sdk email password s =
      ⟨.ok user, svc, s1, [.signIn email password]⟩ := by
    simp [AuthService.login, hsign, hver]
  refine ⟨hlogin, ?_⟩
  rw [hlogin]
  simp

/-- C4 witness: at the concrete SDK `baseSdk`, where sign-in
authenticates the verified `uBob`, `login` returns `uBob` and performs no
sign-out. -/
theorem C4_witness :
    svc0.login baseSdk "bob@mail.com" "pw" 0 =
      ⟨.ok uBob, svc0, 1, [.signIn "bob@mail.com" "pw"]⟩ ∧
    SDKCall.signOutCall ∉ (svc0.login baseSdk "bob@mail.com" "pw" 0).trace :=
  C4_login_verified_returns_user svc0 baseSdk "bob@mail.com" "pw" 0 uBob 1 rfl rfl

/-- C5: whenever the provider accepts the account creation (and the
verification dispatch it triggers goes through), `register` returns the
created user, and its trace dispatches exactly one email-verification
notification. -/
theorem C5_register_sends_one_verification (svc : AuthService)
    (sdk : FirebaseSDK σ) (email password : String) (s : σ) (user : User)
    (s1 s2 : σ)
    (hcreate : sdk.createUserWithEmailAndPassword svc.auth email password s = .ok (user, s1))
    (hsend : sdk.sendEmailVerification (some user) s1 = .ok s2) :
    svc.register sdk email password s =
      ⟨.ok user, svc, s2, [.createUser email password, .sendVerification (some user)]⟩ ∧
    verificationSends (svc.register sdk email password s).trace = 1 := by
  have hreg : svc.register sdk email password s =
      ⟨.ok user, svc, s2, [.createUser email password, .sendVerification (some user)]⟩ := by
    simp [AuthService.register, hcreate, hsend]
  refine ⟨hreg, ?_⟩
  rw [hreg]
  simp [verificationSends, SDKCall.isVerificationSend]

/-- C5 witness: at the concrete SDK `baseSdk`, registering creates
`uAlice`, returns her, and dispatches exactly one verification
notification. -/
theorem C5_witness :
    svc0.register baseSdk "alice@mail.com" "pw" 0 =
      ⟨.ok uAlice, svc0, 2,
        [.createUser "alice@mail.com" "pw", .sendVerification (some uAlice)]⟩ ∧
    verificationSends (svc0.register baseSdk "alice@mail.com" "pw" 0).trace = 1 :=
  C5_register_sends_one_verification svc0 baseSdk "alice@mail.com" "pw" 0 uAlice 1 2 rfl rfl

/-- C6: whenever the provider rejects the account creation (for example a
duplicate email), `register` fails with exactly that provider error and
its trace dispatches no verification notification. -/
theorem C6_register_rejection_no_notification (svc : AuthService)
    (sdk : FirebaseSDK σ) (email password : String) (s : σ) (e : ProviderError)
    (hcreate : sdk.createUserWithEmailAndPassword svc.auth email password s = .error e) :
    svc.register sdk email password s =
      ⟨.error (.provider e), svc, s, [.createUser email password]⟩ ∧
    verificationSends (svc.register sdk email password s).trace = 0 := by
  have hreg : svc.register sdk email password s =
      ⟨.error (.provider e), svc, s, [.createUser email password]⟩ := by
    simp [AuthService.register, hcreate]
  refine ⟨hreg, ?_⟩
  rw [hreg]
  simp [verificationSends, SDKCall.isVerificationSend]

/-- C6 witness: at the concrete SDK `sdkCreateFails`, where account
creation rejects with a duplicate-email error, `register` fails with that
provider error and dispatches no notification. -/
theorem C6_witness :
    svc0.register sdkCreateFails "alice@mail.com" "pw" 0 =
      ⟨.error (.provider ⟨"email-already-in-use"⟩), svc0, 0,
        [.createUser "alice@mail.com" "pw"]⟩ ∧
    verificationSends (svc0.register sdkCreateFails "alice@mail.com" "pw" 0).trace = 0 :=
  C6_register_rejection_no_notification svc0 sdkCreateFails "alice@mail.com" "pw" 0
    ⟨"email-already-in-use"⟩ rfl

/-- C10: `register` returns the created user whatever that user's
email-verified flag is — the flag is quantified over freely, so no
verification check is performed by `register`; in particular a freshly
created, unverified user is returned successfully. -/
theorem C10_register_ignores_verified_flag (svc : AuthService)
    (sdk : FirebaseSDK σ) (email password : String) (s : σ) (user : User)
    (s1 s2 : σ)
    (hcreate : sdk.createUserWithEmailAndPassword svc.auth email password s = .ok (user, s1))
    (hsend : sdk.sendEmailVerification (some user) s1 = .ok s2) :
    (svc.register sdk email password s).result = .ok user := by
  simp [AuthService.register, hcreate, hsend]

/-- C10 witness: at the concrete SDK `baseSdk`, the created user `uAlice`
has `emailVerified = false` and `register` still returns her. -/
theorem C10_witness :
    uAlice.emailVerified = false ∧
    (svc0.register baseSdk "alice@mail.com" "pw" 0).result = .ok uAlice :=
  ⟨rfl, C10_register_ignores_verified_flag svc0 baseSdk "alice@mail.com" "pw" 0 uAlice 1 2 rfl rfl⟩

/-- C1 counterexample: the claim says every unverified login fails with
`UnverifiedEmailError` and invalidates the session via logout.  At the
concrete SDK `sdkUnverifiedLogoutFailNet`, sign-in authenticates the
unverified `uAlice` but the compensating sign-out rejects: `login` fails
with that provider error, not with `emailNotVerified`, and the provider
state is the post-sign-in state `1` — the session was not invalidated. -/
theorem C1_counterexample :
    (svc0.login sdkUnverifiedLogoutFailNet "alice@mail.com" "pw" 0).result ≠
      .error .emailNotVerified ∧
    svc0.login sdkUnverifiedLogoutFailNet "alice@mail.com" "pw" 0 =
      ⟨.error (.provider ⟨"network-failure"⟩), svc0, 1,
        [.signIn "alice@mail.com" "pw", .signOutCall]⟩ := by
  exact ⟨by decide, rfl⟩

/-- C1 (amended): for every login where the provider authenticates the
credentials but the returned user's verified flag is false, `login`
first calls the compensating logout, and provided that logout succeeds it
fails with `UnverifiedEmailError`, leaving the post-sign-out provider
state — no unverified session remains active.  The trace shows the
verification check happens only after authentication succeeds: sign-in
first, then sign-out. -/
theorem C1_login_unverified_logout_then_fail (svc : AuthService)
    (sdk : FirebaseSDK σ) (email password : String) (s : σ) (user : User)
    (s1 s2 : σ)
    (hsign : sdk.signInWithEmailAndPassword svc.auth email password s = .ok (user, s1))
    (hver : user.emailVerified = false)
    (hout : sdk.signOut svc.auth s1 = .ok s2) :
    svc.login sdk email password s =
      ⟨.error .emailNotVerified, svc, s2, [.signIn email password, .signOutCall]⟩ := by
  simp [AuthService.login, AuthService.logout, hsign, hver, hout]

/-- C1 witness: at the concrete SDK `sdkUnverifiedLogoutOk`, sign-in
authenticates the unverified `uAlice` and the compensating sign-out
succeeds, so `login` fails with `emailNotVerified` after signing out. -/
theorem C1_witness :
    svc0.login sdkUnverifiedLogoutOk "alice@mail.com" "pw" 0 =
      ⟨.error .emailNotVerified, svc0, 2, [.signIn "alice@mail.com" "pw", .signOutCall]⟩ :=
  C1_login_unverified_logout_then_fail svc0 sdkUnverifiedLogoutOk "alice@mail.com" "pw" 0
    uAlice 1 2 rfl rfl rfl

/-- C3 counterexample: the claim says that when the compensating logout
fails the caller still receives `UnverifiedEmailError`.  At the concrete
SDK `sdkUnverifiedLogoutDown`, sign-in authenticates the unverified
`uAlice` and sign-out rejects; the caller receives the logout's provider
error, not `emailNotVerified`. -/
theorem C3_counterexample :
    (svc0.login sdkUnverifiedLogoutDown "alice@mail.com" "pw" 0).result =
      .error (.provider ⟨"signout-unavailable"⟩) ∧
    (svc0.login sdkUnverifiedLogoutDown "alice@mail.com" "pw" 0).result ≠
      .error .emailNotVerified := by
  exact ⟨rfl, by decide⟩

/-- C3 (amended): when `login` detects an unverified email and the
compensating logout itself fails, the logout's failure is not swallowed:
it propagates out of the `else` branch before the local throw is reached,
and the outer catch rethrows it, so the caller receives the logout's
provider error instead of `UnverifiedEmailError`. -/
theorem C3_logout_failure_replaces_unverified_error (svc : AuthService)
    (sdk : FirebaseSDK σ) (email password : String) (s : σ) (user : User)
    (s1 : σ) (e : ProviderError)
    (hsign : sdk.signInWithEmailAndPassword svc.auth email password s = .ok (user, s1))
    (hver : user.emailVerified = false)
    (hout : sdk.signOut svc.auth s1 = .error e) :
    svc.login sdk email password s =
      ⟨.error (.provider e), svc, s1, [.signIn email password, .signOutCall]⟩ ∧
    (svc.login sdk email password s).result ≠ .error .emailNotVerified := by
  have hlogin : svc.login sdk email password s =
      ⟨.error (.provider e), svc, s1, [.signIn email password, .signOutCall]⟩ := by
    simp [AuthService.login, AuthService.logout, hsign, hver, hout]
  refine ⟨hlogin, ?_⟩
  rw [hlogin]
  simp

/-- C3 witness: at the concrete SDK `sdkSignOutFails` composed with an
unverified sign-in — here `sdkUnverifiedLogoutFailNet` with its failing
sign-out — the caller of `login` receives the sign-out's provider error. -/
theorem C3_witness :
    svc0.login sdkUnverifiedLogoutFailNet "carol@mail.com" "pw" 0 =
      ⟨.error (.provider ⟨"network-failure"⟩), svc0, 1,
        [.signIn "carol@mail.com" "pw", .signOutCall]⟩ ∧
    (svc0.login sdkUnverifiedLogoutFailNet "carol@mail.com" "pw" 0).result ≠
      .error .emailNotVerified :=
  C3_logout_failure_replaces_unverified_error svc0 sdkUnverifiedLogoutFailNet
    "carol@mail.com" "pw" 0 uAlice 1 ⟨"network-failure"⟩ rfl rfl rfl

/-- C8: when no user is currently authenticated (`currentUser` yields
`none`) and the provider therefore rejects the verification dispatch for
the null user, `sendEmailVerification` fails with that provider error. -/
theorem C8_send_verification_no_user_fails (svc : AuthService)
    (sdk : FirebaseSDK σ) (s : σ) (e : ProviderError)
    (hnone : sdk.currentUser svc.auth s = none)
    (hfail : sdk.sendEmailVerification none s = .error e) :
    (svc.sendEmailVerification sdk s).result = .error (.provider e) := by
  simp [AuthService.sendEmailVerification, hnone, hfail]

/-- C8 witness: at the concrete SDK `sdkNoUser`, nobody is authenticated
and the dispatch for the null user rejects, so the façade call fails with
that provider error. -/
theorem C8_witness :
    (svc0.sendEmailVerification sdkNoUser 0).result =
      .error (.provider ⟨"auth-no-current-user"⟩) :=
  C8_send_verification_no_user_fails svc0 sdkNoUser 0 ⟨"auth-no-current-user"⟩ rfl rfl

/-- C7: every error signaled by the SDK surfaces to the caller as exactly
that provider error, unchanged, for every failure point of the five
delegating operations (`register` at creation and at notification
dispatch, `login` at sign-in and at the compensating sign-out, `logout`,
`sendEmailVerification`, `forgotPassword`); the trace in each conclusion
shows the operation stops at the failing call, so nothing is recovered or
retried internally. -/
theorem C7_provider_errors_pass_through (svc : AuthService)
    (sdk : FirebaseSDK σ) (email password : String) (s : σ) (user : User)
    (s1 : σ) (e : ProviderError) :
    (sdk.createUserWithEmailAndPassword svc.auth email password s = .error e →
      svc.register sdk email password s =
        ⟨.error (.provider e), svc, s, [.createUser email password]⟩) ∧
    (sdk.createUserWithEmailAndPassword svc.auth email password s = .ok (user, s1) →
      sdk.sendEmailVerification (some user) s1 = .error e →
      svc.register sdk email password s =
        ⟨.error (.provider e), svc, s1,
          [.createUser email password, .sendVerification (some user)]⟩) ∧
    (sdk.signInWithEmailAndPassword svc.auth email password s = .error e →
      svc.login sdk email password s =
        ⟨.error (.provider e), svc, s, [.signIn email password]⟩) ∧
    (sdk.signInWithEmailAndPassword svc.auth email password s = .ok (user, s1) →
      user.emailVerified = false →
      sdk.signOut svc.auth s1 = .error e →
      svc.login sdk email password s =
        ⟨.error (.provider e), svc, s1, [.signIn email password, .signOutCall]⟩) ∧
    (sdk.signOut svc.auth s = .error e →
      svc.logout sdk s = ⟨.error (.provider e), svc, s, [.signOutCall]⟩) ∧
    (sdk.sendEmailVerification (sdk.currentUser svc.auth s) s = .error e →
      svc.sendEmailVerification sdk s =
        ⟨.error (.provider e), svc, s, [.sendVerification (sdk.currentUser svc.auth s)]⟩) ∧
    (sdk.sendPasswordResetEmail svc.auth email s = .error e →
      svc.forgotPassword sdk email s =
        ⟨.error (.provider e), svc, s, [.sendPasswordReset email]⟩) := by
  refine ⟨?_, ?_, ?_, ?_, ?_, ?_, ?_⟩
  · intro h
    simp [AuthService.register, h]
  · intro h1 h2
    simp [AuthService.register, h1, h2]
  · intro h
    simp [AuthService.login, h]
  · intro h1 h2 h3
    simp [AuthService.login, AuthService.logout, h1, h2, h3]
  · intro h
    simp [AuthService.logout, h]
  · intro h
    simp [AuthService.sendEmailVerification, h]
  · intro h
    simp [AuthService.forgotPassword, h]

/-- C7 witness: each failure point exercised at a concrete SDK whose
corresponding call rejects; in every case the caller receives that very
provider error and the trace ends at the failing call. -/
theorem C7_witness :
    svc0.register sdkCreateFails "a@mail.com" "pw" 0 =
      ⟨.error (.provider ⟨"email-already-in-use"⟩), svc0, 0, [.createUser "a@mail.com" "pw"]⟩ ∧
    svc0.register sdkSendFails "a@mail.com" "pw" 0 =
      ⟨.error (.provider ⟨"too-many-requests"⟩), svc0, 1,
        [.createUser "a@mail.com" "pw", .sendVerification (some uAlice)]⟩ ∧
    svc0.login sdkSignInFails "a@mail.com" "pw" 0 =
      ⟨.error (.provider ⟨"wrong-password"⟩), svc0, 0, [.signIn "a@mail.com" "pw"]⟩ ∧
    svc0.login sdkUnverifiedLogoutDown "a@mail.com" "pw" 0 =
      ⟨.error (.provider ⟨"signout-unavailable"⟩), svc0, 1,
        [.signIn "a@mail.com" "pw", .signOutCall]⟩ ∧
    svc0.logout sdkSignOutFails 0 =
      ⟨.error (.provider ⟨"no-current-session"⟩), svc0, 0, [.signOutCall]⟩ ∧
    svc0.sendEmailVerification sdkSendFails 0 =
      ⟨.error (.provider ⟨"too-many-requests"⟩), svc0, 0,
        [.sendVerification (sdkSendFails.currentUser svc0.auth 0)]⟩ ∧
    svc0.forgotPassword sdkResetFails "a@mail.com" 0 =
      ⟨.error (.provider ⟨"invalid-email"⟩), svc0, 0, [.sendPasswordReset "a@mail.com"]⟩ :=
  ⟨(C7_provider_errors_pass_through svc0 sdkCreateFails "a@mail.com" "pw" 0 uAlice 0
      ⟨"email-already-in-use"⟩).1 rfl,
   (C7_provider_errors_pass_through svc0 sdkSendFails "a@mail.com" "pw" 0 uAlice 1
      ⟨"too-many-requests"⟩).2.1 rfl rfl,
   (C7_provider_errors_pass_through svc0 sdkSignInFails "a@mail.com" "pw" 0 uAlice 0
      ⟨"wrong-password"⟩).2.2.1 rfl,
   (C7_provider_errors_pass_through svc0 sdkUnverifiedLogoutDown "a@mail.com" "pw" 0 uAlice 1
      ⟨"signout-unavailable"⟩).2.2.2.1 rfl rfl rfl,
   (C7_provider_errors_pass_through svc0 sdkSignOutFails "a@mail.com" "pw" 0 uAlice 0
      ⟨"no-current-session"⟩).2.2.2.2.1 rfl,
   (C7_provider_errors_pass_through svc0 sdkSendFails "a@mail.com" "pw" 0 uAlice 0
      ⟨"too-many-requests"⟩).2.2.2.2.2.1 rfl,
   (C7_provider_errors_pass_through svc0 sdkResetFails "a@mail.com" "pw" 0 uAlice 0
      ⟨"invalid-email"⟩).2.2.2.2.2.2 rfl⟩

/-- C9: the façade's own fields are assigned exactly once, in the
constructor — `firebaseApp` to `initializeApp(config)` and `auth` to
`getAuth` of it — and every operation returns the service object
unchanged: no method reassigns `this.firebaseApp` or `this.auth`. -/
theorem C9_handles_assigned_once_never_mutated (svc : AuthService)
    (sdk : FirebaseSDK σ) (email password : String) (s : σ)
    (provider : Option String) (c : FirebaseConfig) :
    (AuthService.make c).firebaseApp = initializeApp c ∧
    (AuthService.make c).auth = getAuth (initializeApp c) ∧
    (svc.register sdk email password s).service = svc ∧
    (svc.login sdk email password s).service = svc ∧
    (svc.logout sdk s).service = svc ∧
    (svc.sendEmailVerification sdk s).service = svc ∧
    (svc.forgotPassword sdk email s).service = svc ∧
    (svc.signInWithGoogle provider s).service = svc ∧
    (svc.signInWithFacebook provider s).service = svc := by
  refine ⟨rfl, rfl, ?_, ?_, ?_, ?_, ?_, rfl, rfl⟩
  · unfold AuthService.register
    cases hc : sdk.createUserWithEmailAndPassword svc.auth email password s with
    | error e => simp
    | ok p =>
      obtain ⟨user, s1⟩ := p
      cases hs : sdk.sendEmailVerification (some user) s1 <;> simp [hs]
  · unfold AuthService.login AuthService.logout
    cases hc : sdk.signInWithEmailAndPassword svc.auth email password s with
    | error e => simp
    | ok p =>
      obtain ⟨user, s1⟩ := p
      cases hv : user.emailVerified <;>
        cases hs : sdk.signOut svc.auth s1 <;> simp [hv, hs]
  · unfold AuthService.logout
    cases hs : sdk.signOut svc.auth s <;> simp [hs]
  · unfold AuthService.sendEmailVerification
    cases hs : sdk.sendEmailVerification (sdk.currentUser svc.auth s) s <;> simp [hs]
  · unfold AuthService.forgotPassword
    cases hs : sdk.sendPasswordResetEmail svc.auth email s <;> simp [hs]
